import Mathlib

/-!
Verification of the client-side session-and-request orchestration layer of the
Dublin rent price estimator front end.  Each definition is a shallow embedding
of the corresponding TypeScript function: React component state becomes a Lean
structure, each event handler or effect body becomes a state-transition
function, asynchronous calls are split at their suspension points, and the
outbound network requests a transition makes are returned explicitly so that
claims about "no network call" are structural.
-/

/-- The two mutually exclusive model/request variants used by both the
prediction form (`activeFormType`) and the model-info display
(`activeModelType`). -/
inductive Variant
  | property
  | sharing
deriving DecidableEq, Repr

namespace Prediction

/-- The request payload built by `handlePredict`.  The source builds one of two
object-literal shapes: a property payload carrying `bedrooms`/`bathrooms` and
an explicit `roomType: null`, or a sharing payload carrying `roomType` and no
`bedrooms`/`bathrooms` keys at all. -/
inductive Payload
  | property (bedrooms bathrooms propertyType dublinArea : String)
  | sharing (propertyType dublinArea roomType : String)
deriving DecidableEq, Repr

/-- The `isShared` field of the payload object literal. -/
def Payload.isShared : Payload → Bool
  | .property .. => false
  | .sharing .. => true

/-- Whether the payload object literal has a `bedrooms` key. -/
def Payload.hasBedroomsField : Payload → Bool
  | .property .. => true
  | .sharing .. => false

/-- Whether the payload object literal has a `bathrooms` key. -/
def Payload.hasBathroomsField : Payload → Bool
  | .property .. => true
  | .sharing .. => false

/-- The `SubmittedDetails` interface: optional keys are `Option`s, the
`roomType` of a property submission is `none` (null). -/
structure SubmittedDetails where
  bedrooms : Option String
  bathrooms : Option String
  propertyType : String
  dublinArea : String
  isShared : Bool
  roomType : Option String
deriving DecidableEq, Repr

/-- The `useState` cells of `PredictionPage`.  Form fields are strings whose
empty string is the unselected state; `predictedPrice` is a rational standing
for the JS number. -/
structure State where
  activeFormType : Variant
  bedrooms : String
  bathrooms : String
  propertyType : String
  dublinArea : String
  roomType : String
  predictedPrice : Option ℚ
  isLoading : Bool
  submittedDetails : Option SubmittedDetails
deriving DecidableEq, Repr

/-- Initial state of `PredictionPage` on mount. -/
def initState : State :=
  { activeFormType := .property, bedrooms := "", bathrooms := "", propertyType := ""
    dublinArea := "", roomType := "", predictedPrice := none, isLoading := false
    submittedDetails := none }

/-- `isFormValid` from the source: truthiness of the fields required by the
active tab (empty string is falsy). -/
def isFormValid (s : State) : Bool :=
  match s.activeFormType with
  | .property => !(s.bedrooms = "") && !(s.bathrooms = "") && !(s.propertyType = "") && !(s.dublinArea = "")
  | .sharing => !(s.propertyType = "") && !(s.dublinArea = "") && !(s.roomType = "")

/-- `currentSubmittedDetails` as computed by `handlePredict` for each payload
shape. -/
def detailsOfPayload : Payload → SubmittedDetails
  | .property b ba pt da =>
    { bedrooms := some b, bathrooms := some ba, propertyType := pt, dublinArea := da
      isShared := false, roomType := none }
  | .sharing pt da rt =>
    { bedrooms := none, bathrooms := none, propertyType := pt, dublinArea := da
      isShared := true, roomType := some rt }

/-- The synchronous prefix of `handlePredict`, up to the awaited POST to the
prediction service: set `isLoading`, clear the previous result and submitted
details, validate the fields required by the active tab, and either abort
(validation failure: `isLoading` reset, `none` means no request was issued) or
leave the request in flight, returning the payload posted. -/
def handlePredictStart (s : State) : State × Option Payload :=
  let s1 : State := { s with isLoading := true, predictedPrice := none, submittedDetails := none }
  match s1.activeFormType with
  | .property =>
    if s1.bedrooms = "" ∨ s1.bathrooms = "" ∨ s1.propertyType = "" ∨ s1.dublinArea = "" then
      ({ s1 with isLoading := false }, none)
    else
      (s1, some (.property s1.bedrooms s1.bathrooms s1.propertyType s1.dublinArea))
  | .sharing =>
    if s1.propertyType = "" ∨ s1.dublinArea = "" ∨ s1.roomType = "" then
      ({ s1 with isLoading := false }, none)
    else
      (s1, some (.sharing s1.propertyType s1.dublinArea s1.roomType))

/-- Outcome of the awaited POST /predict. -/
inductive PredictOutcome
  | success (predictedPrice : ℚ)
  | failure
deriving DecidableEq, Repr

/-- The continuation of `handlePredict` after the awaited POST resolves:
success stores the predicted price and the submitted details, failure only
logs; `finally` clears the loading flag. -/
def handlePredictResolve (s : State) (inflight : Payload) : PredictOutcome → State
  | .success p =>
    { s with
      predictedPrice := some p, submittedDetails := some (detailsOfPayload inflight),
      isLoading := false }
  | .failure => { s with isLoading := false }

/-- The submit button: `disabled={!isFormValid() || isLoading}`.  A disabled
button never fires its `onClick`, so a click is a no-op (and issues no
request) unless the form is valid and no submission is in flight. -/
def clickPredict (s : State) : State × Option Payload :=
  if !(isFormValid s) || s.isLoading then (s, none)
  else handlePredictStart s

/-- `handleTabChange`: switch the active tab and reset every form field, the
predicted price and the submitted details. -/
def handleTabChange (s : State) (value : Variant) : State :=
  { s with
    activeFormType := value, bedrooms := "", bathrooms := "", propertyType := "",
    dublinArea := "", roomType := "", predictedPrice := none, submittedDetails := none }

/-- The result card renders only when `predictedPrice && submittedDetails` is
truthy (a price of 0 is falsy in JS). -/
def showsResult (s : State) : Bool :=
  match s.predictedPrice, s.submittedDetails with
  | some p, some _ => !(p = 0)
  | _, _ => false

end Prediction

namespace AuthCtx

/-- The `User` interface returned by GET /users/me. -/
structure User where
  id : ℤ
  email : String
deriving DecidableEq, Repr

/-- The observable state of `AuthProvider` together with its externally
visible effects: `storage` is the `accessToken` entry of localStorage,
`axiosAuthHeader` is `axios.defaults.headers.common.Authorization`,
`navigations` records `router.push` calls in order, and `identityRequests`
records the bearer token of every GET /users/me call made. -/
structure State where
  user : Option User
  token : Option String
  isLoading : Bool
  storage : Option String
  axiosAuthHeader : Option String
  navigations : List String
  identityRequests : List String
deriving DecidableEq, Repr

/-- State of a freshly mounted `AuthProvider` over a given persisted storage
entry: no user, no token, `isLoading` starts true, no default header yet, no
effects performed. -/
def initState (storage : Option String) : State :=
  { user := none, token := none, isLoading := true, storage := storage,
    axiosAuthHeader := none, navigations := [], identityRequests := [] }

/-- JS `a || b` on nullable strings: `a` wins unless it is null or the empty
string (both falsy). -/
def orFalsy (a b : Option String) : Option String :=
  match a with
  | some t => if t = "" then b else some t
  | none => b

/-- Outcome of the awaited GET /users/me. -/
inductive IdentityOutcome
  | success (u : User)
  | rejected
deriving DecidableEq, Repr

/-- `fetchUser(currentToken?)`: use `currentToken || token`; when truthy, issue
the identity request with that bearer.  Success caches the user; rejection
clears the user, the in-memory token and the storage entry — but leaves the
axios default Authorization header untouched.  Either way `isLoading` ends
false, and no second request is attempted. -/
def fetchUser (s : State) (currentToken : Option String) (outcome : IdentityOutcome) : State :=
  match orFalsy currentToken s.token with
  | some t =>
    if t = "" then { s with isLoading := false }
    else
      let s1 : State := { s with identityRequests := s.identityRequests ++ [t] }
      match outcome with
      | .success u => { s1 with user := some u, isLoading := false }
      | .rejected =>
        { s1 with user := none, token := none, storage := none, isLoading := false }
  | none => { s with isLoading := false }

/-- The mount effect of `AuthProvider`: read the stored token; if truthy, put
it in state, install the axios default Authorization header, and run
`fetchUser` with it; otherwise just finish loading. -/
def bootstrap (s : State) (outcome : IdentityOutcome) : State :=
  match s.storage with
  | some t =>
    if t = "" then { s with isLoading := false }
    else
      fetchUser
        { s with token := some t, axiosAuthHeader := some ("Bearer " ++ t) }
        (some t) outcome
  | none => { s with isLoading := false }

/-- `logout()`: clear the user, token, storage entry and axios default
header, navigate to /login, and finish loading. -/
def logout (s : State) : State :=
  { s with
    user := none, token := none, storage := none, axiosAuthHeader := none,
    navigations := s.navigations ++ ["/login"], isLoading := false }

/-- The spec's derived `AuthState`: `Resolving` while `isLoading`, otherwise
`Authenticated` exactly when a user is cached. -/
inductive AuthState
  | Unauthenticated
  | Resolving
  | Authenticated (u : User)
deriving DecidableEq, Repr

/-- Derivation of the spec's `AuthState` from the provider state. -/
def authState (s : State) : AuthState :=
  if s.isLoading then .Resolving
  else
    match s.user with
    | some u => .Authenticated u
    | none => .Unauthenticated

end AuthCtx

namespace Health

/-- The `HealthStatus` interface polled from GET /healthcheck. -/
structure HealthStatus where
  status : String
  property_model_trained : Bool
  shared_model_trained : Bool
  both_models_ready : Bool
deriving DecidableEq, Repr

/-- The `useState` cells of `HealthIndicator`: the last stored status (null
before the first check completes) and the loading flag that starts true. -/
structure State where
  healthStatus : Option HealthStatus
  isLoading : Bool
deriving DecidableEq, Repr

/-- State on mount, before the immediate first check completes. -/
def initState : State := { healthStatus := none, isLoading := true }

/-- Outcome of one awaited GET /healthcheck. -/
inductive CheckOutcome
  | success (data : HealthStatus)
  | failure
deriving DecidableEq, Repr

/-- `checkHealth`: a successful response replaces the stored status with the
response data; any failure replaces it with the synthetic error status with
all readiness flags false; `finally` clears the loading flag. -/
def checkHealth (_s : State) (o : CheckOutcome) : State :=
  match o with
  | .success data => { healthStatus := some data, isLoading := false }
  | .failure =>
    { healthStatus := some
        { status := "error", property_model_trained := false,
          shared_model_trained := false, both_models_ready := false },
      isLoading := false }

/-- `isHealthy` from the source: the stored status exists and equals
"healthy". -/
def isHealthy (s : State) : Bool :=
  match s.healthStatus with
  | some h => h.status = "healthy"
  | none => false

/-- The three renderings of the indicator (text and colour). -/
inductive Indicator
  | checking
  | healthy
  | issues
deriving DecidableEq, Repr

/-- The derived indicator: `Checking...` while loading, else `System Online`
iff `isHealthy`, else `System Issues`. -/
def indicator (s : State) : Indicator :=
  if s.isLoading then .checking
  else if isHealthy s then .healthy
  else .issues

/-- The state after a mount followed by the given sequence of completed
checks (the immediate check plus the 60-second interval firings). -/
def run (outcomes : List CheckOutcome) : State :=
  outcomes.foldl checkHealth initState

end Health

namespace ModelInfoView

/-- `model_metrics` of the `ModelInfo` interface; JS numbers become
rationals. -/
structure ModelMetrics where
  mae : ℚ
  mse : ℚ
  rmse : ℚ
  r2 : ℚ
  training_samples : ℤ
  test_samples : ℤ
deriving DecidableEq, Repr

/-- `data_summary` of the `ModelInfo` interface; the two `Record<string,
number>` objects become association lists in key-insertion order. -/
structure DataSummary where
  total_records : ℤ
  avg_price : ℚ
  min_price : ℚ
  max_price : ℚ
  property_types : List (String × ℤ)
  dublin_areas : List (String × ℤ)
  message : Option String
deriving DecidableEq, Repr

/-- `available_options` of the `ModelInfo` interface. -/
structure AvailableOptions where
  property_types : List String
  dublin_areas : List ℤ
deriving DecidableEq, Repr

/-- The `ModelInfo` interface fetched from GET /model-info;
`feature_importances` is a `Record<string, number>` embedded as an
association list in key-insertion order (the order `Object.entries`
yields). -/
structure ModelInfo where
  feature_importances : List (String × ℚ)
  model_type : String
  status : String
  model_metrics : ModelMetrics
  data_summary : DataSummary
  available_options : AvailableOptions
deriving DecidableEq, Repr

/-- The `useState` cells of `ModelInfoDisplay`, plus the list of in-flight
GET /model-info requests (oldest first), each tagged with the variant it was
issued for — the value the effect closure captured. -/
structure State where
  activeModelType : Variant
  modelInfo : Option ModelInfo
  error : Option String
  pending : List Variant
deriving DecidableEq, Repr

/-- The query-string value used for a variant. -/
def variantName : Variant → String
  | .property => "property"
  | .sharing => "sharing"

/-- The synchronous prefix of the `fetchModelInfo` effect body: clear the
error and issue a GET /model-info request for the currently active variant.
The previously stored `modelInfo` is NOT cleared. -/
def fetchModelInfoStart (s : State) : State :=
  { s with error := none, pending := s.pending ++ [s.activeModelType] }

/-- Mount: the effect runs once for the initial variant. -/
def mount (v : Variant) : State :=
  fetchModelInfoStart
    { activeModelType := v, modelInfo := none, error := none, pending := [] }

/-- Tab change: `setActiveModelType` re-renders and the effect re-runs for the
new variant. -/
def selectVariant (s : State) (v : Variant) : State :=
  fetchModelInfoStart { s with activeModelType := v }

/-- Outcome of one awaited GET /model-info request. -/
inductive FetchOutcome
  | success (data : ModelInfo)
  | failure
deriving DecidableEq, Repr

/-- Resolution of the i-th in-flight request: success stores the response
data unconditionally (there is no staleness guard comparing the requested
variant with the active one); failure stores the error message built from
the variant the closure captured. -/
def resolve (s : State) (i : ℕ) (o : FetchOutcome) : State :=
  match s.pending[i]? with
  | none => s
  | some v =>
    let s1 : State := { s with pending := s.pending.eraseIdx i }
    match o with
    | .success data => { s1 with modelInfo := some data }
    | .failure =>
      { s1 with error := some ("Failed to load model information for " ++ variantName v ++ " model.") }

/-- The three renderings of `ModelInfoDisplay`: the error card, the loading
message, or the data view for the stored `ModelInfo` under the active tab. -/
inductive View
  | errorView (msg : String)
  | loading
  | dataView (mi : ModelInfo) (activeTab : Variant)
deriving DecidableEq, Repr

/-- The render branches of `ModelInfoDisplay`: error first, then the loading
branch when `modelInfo` is null, else the data view. -/
def render (s : State) : View :=
  match s.error with
  | some msg => .errorView msg
  | none =>
    match s.modelInfo with
    | none => .loading
    | some mi => .dataView mi s.activeModelType

/-- A concrete property-model snapshot, used as a sample response of the
model-info service. -/
def propertySample : ModelInfo :=
  { feature_importances := [("bedrooms", 1), ("bathrooms", 0)],
    model_type := "property", status := "ok",
    model_metrics := { mae := 0, mse := 0, rmse := 0, r2 := 0,
                       training_samples := 0, test_samples := 0 },
    data_summary := { total_records := 0, avg_price := 0, min_price := 0, max_price := 0,
                      property_types := [], dublin_areas := [], message := none },
    available_options := { property_types := [], dublin_areas := [] } }

/-- A concrete sharing-model snapshot, used as a sample response of the
model-info service. -/
def sharingSample : ModelInfo :=
  { propertySample with model_type := "sharing" }

/-- `sortedFeatures`: the entries of `feature_importances` sorted descending
by weight (JS stable sort with comparator `b - a`), truncated to the first
10. -/
def sortedFeatures (mi : ModelInfo) : List (String × ℚ) :=
  (mi.feature_importances.mergeSort (fun a b => decide (b.2 ≤ a.2))).take 10

/-- The importance bars as rendered: each displayed entry paired with its
relative bar width, `importance * 100` (the percent value of the style
width). -/
def renderedBars (mi : ModelInfo) : List (String × ℚ) :=
  (sortedFeatures mi).map (fun e => (e.1, e.2 * 100))

end ModelInfoView

namespace History

/-- `search_parameters` of the `SearchHistoryItem` interface: optional or
nullable keys become `Option`s. -/
structure SearchParameters where
  bedrooms : Option String
  bathrooms : Option String
  propertyType : String
  dublinArea : String
  isShared : Option Bool
  roomType : Option String
deriving DecidableEq, Repr

/-- `prediction_result` of the `SearchHistoryItem` interface. -/
structure PredictionResult where
  predictedPrice : ℚ
  lowerBound : ℚ
  upperBound : ℚ
deriving DecidableEq, Repr

/-- The `SearchHistoryItem` interface returned by the history service. -/
structure SearchHistoryItem where
  id : ℤ
  user_id : ℤ
  search_parameters : SearchParameters
  prediction_result : PredictionResult
  timestamp : String
deriving DecidableEq, Repr

/-- Behaviour of the GET /users/me/search-history transport as seen by
`fetchUserSearchHistory`: a 2xx response with items, a non-ok response whose
body may or may not contain a JSON `detail`, a rejected fetch carrying an
Error message, or a non-Error throw. -/
inductive FetchResponse
  | ok (items : List SearchHistoryItem)
  | httpError (detail : Option String)
  | networkError (message : String)
  | unknownFailure
deriving DecidableEq, Repr

/-- `fetchUserSearchHistory(token)`: a non-ok response throws the parsed
`detail` when present, else the generic message; a fetch rejection that is an
Error is re-thrown unchanged; anything else becomes the unknown-error
message.  Exactly one network call is made per invocation. -/
def fetchUserSearchHistory (token : String) (resp : FetchResponse) :
    Except String (List SearchHistoryItem) :=
  match token, resp with
  | _, .ok items => .ok items
  | _, .httpError detail => .error (detail.getD ("Failed to fetch search history."))
  | _, .networkError message => .error message
  | _, .unknownFailure => .error ("An unknown error occurred while fetching search history.")

/-- A concrete authenticated user for the history-page scenarios. -/
def sampleUser : AuthCtx.User :=
  { id := 1, email := "user@example.com" }

/-- The `useState` cells of `SearchHistoryPage`. -/
structure PageState where
  historyItems : List SearchHistoryItem
  isLoading : Bool
  error : Option String
deriving DecidableEq, Repr

/-- State of the page on mount: empty items, loading, no error. -/
def initPageState : PageState :=
  { historyItems := [], isLoading := true, error := none }

/-- The `loadHistory` effect body, given the auth context values; the second
component counts the history-service calls made (0 or 1).  While auth is
still resolving nothing happens; with no user or no (truthy) token the
login-prompt error is set without any network call; otherwise exactly one
fetch is made and its failure message, whatever its cause, lands in the same
`error` cell. -/
def loadHistoryEffect (authLoading : Bool) (user : Option AuthCtx.User)
    (token : Option String) (resp : FetchResponse) (s : PageState) : PageState × ℕ :=
  if authLoading then (s, 0)
  else
    match user, token with
    | some _, some t =>
      if t = "" then
        ({ s with error := some ("Please log in to view your search history."), isLoading := false }, 0)
      else
        match fetchUserSearchHistory t resp with
        | .ok data => ({ s with historyItems := data, error := none, isLoading := false }, 1)
        | .error msg => ({ s with error := some msg, isLoading := false }, 1)
    | _, _ =>
      ({ s with error := some ("Please log in to view your search history."), isLoading := false }, 0)

/-- The renderings of `SearchHistoryPage`. -/
inductive PageView
  | loading
  | errorView (msg : String)
  | empty
  | list (items : List SearchHistoryItem)
deriving DecidableEq, Repr

/-- The render branches of `SearchHistoryPage`: loading first (own flag or
auth still resolving), then the error, then empty/list. -/
def renderPage (authLoading : Bool) (s : PageState) : PageView :=
  if s.isLoading || authLoading then .loading
  else
    match s.error with
    | some msg => .errorView msg
    | none => if s.historyItems.isEmpty then .empty else .list s.historyItems

end History

/-! ## Theorems -/

namespace Prediction

/-- C3: for every orchestrator state in which a submission is in flight
(`isLoading` set), a further click on submit leaves the state unchanged and
issues no request; and from any valid idle state, two rapid clicks produce
exactly one outbound request: the first click issues one and flips
`isLoading`, the second is rejected with none. -/
theorem submit_inflight_guard (s s₀ : State)
    (hs : s.isLoading = true)
    (h₀v : isFormValid s₀ = true) (h₀l : s₀.isLoading = false) :
    clickPredict s = (s, none) ∧
    (clickPredict s₀).2.isSome = true ∧
    (clickPredict s₀).1.isLoading = true ∧
    clickPredict (clickPredict s₀).1 = ((clickPredict s₀).1, none) := by
  have first : clickPredict s = (s, none) := by
    simp [clickPredict, hs]
  refine ⟨first, ?_⟩
  have hcond : (!(isFormValid s₀) || s₀.isLoading) = false := by
    simp [h₀v, h₀l]
  have hstart : clickPredict s₀ = handlePredictStart s₀ := by
    simp [clickPredict, hcond]
  rw [hstart]
  cases hty : s₀.activeFormType with
  | property =>
    simp only [isFormValid, hty, Bool.and_eq_true, Bool.not_eq_true',
      decide_eq_false_iff_not] at h₀v
    obtain ⟨⟨⟨h1, h2⟩, h3⟩, h4⟩ := h₀v
    simp [handlePredictStart, clickPredict, hty, h1, h2, h3, h4]
  | sharing =>
    simp only [isFormValid, hty, Bool.and_eq_true, Bool.not_eq_true',
      decide_eq_false_iff_not] at h₀v
    obtain ⟨⟨h1, h2⟩, h3⟩ := h₀v
    simp [handlePredictStart, clickPredict, hty, h1, h2, h3]

/-- C3 witness at concrete states. -/
theorem submit_inflight_guard_witness :
    (let s : State := { initState with isLoading := true }
     let s₀ : State := { initState with
       bedrooms := "2", bathrooms := "1", propertyType := "apartment", dublinArea := "dublin-4" }
     clickPredict s = (s, none) ∧
     (clickPredict s₀).2.isSome = true ∧
     (clickPredict s₀).1.isLoading = true ∧
     clickPredict (clickPredict s₀).1 = ((clickPredict s₀).1, none)) := by
  exact submit_inflight_guard _ _ (by decide) (by decide) (by decide)

/-- C4: `handlePredict` builds a request (second component `some`) exactly
when every field required by the active variant is non-empty — bedrooms,
bathrooms, propertyType, dublinArea for the property tab; propertyType,
dublinArea, roomType for the sharing tab — returning with no request
otherwise; a successful sharing build is the sharing payload shape, which has
`isShared` true and no bedrooms or bathrooms fields. -/
theorem buildRequest_required_fields (s : State) :
    ((handlePredictStart s).2 = none ↔
      (s.activeFormType = .property ∧
        (s.bedrooms = "" ∨ s.bathrooms = "" ∨ s.propertyType = "" ∨ s.dublinArea = "")) ∨
      (s.activeFormType = .sharing ∧
        (s.propertyType = "" ∨ s.dublinArea = "" ∨ s.roomType = ""))) ∧
    (s.activeFormType = .sharing → s.propertyType ≠ "" → s.dublinArea ≠ "" → s.roomType ≠ "" →
      (handlePredictStart s).2 = some (.sharing s.propertyType s.dublinArea s.roomType)) ∧
    (∀ pt da rt, (Payload.sharing pt da rt).isShared = true ∧
      (Payload.sharing pt da rt).hasBedroomsField = false ∧
      (Payload.sharing pt da rt).hasBathroomsField = false) := by
  refine ⟨?_, ?_, ?_⟩
  · cases hty : s.activeFormType with
    | property =>
      by_cases hempty : s.bedrooms = "" ∨ s.bathrooms = "" ∨ s.propertyType = "" ∨ s.dublinArea = "" <;>
        simp [handlePredictStart, hty, hempty]
    | sharing =>
      by_cases hempty : s.propertyType = "" ∨ s.dublinArea = "" ∨ s.roomType = "" <;>
        simp [handlePredictStart, hty, hempty]
  · intro hty h1 h2 h3
    simp [handlePredictStart, hty, h1, h2, h3]
  · intro pt da rt
    exact ⟨rfl, rfl, rfl⟩

/-- C4 witness: the sharing example of the spec, and its bathroom-omitting
property counterpart. -/
theorem buildRequest_required_fields_witness :
    (let sShare : State := { initState with
       activeFormType := .sharing, propertyType := "house", dublinArea := "dublin-6",
       roomType := "double" }
     (handlePredictStart sShare).2
        = some (.sharing sShare.propertyType sShare.dublinArea sShare.roomType) ∧
     ((handlePredictStart { initState with
        bedrooms := "2", propertyType := "apartment", dublinArea := "dublin-4" }).2 = none)) := by
  constructor
  · exact ((buildRequest_required_fields _).2.1 (by decide) (by decide) (by decide) (by decide))
  · exact ((buildRequest_required_fields _).1).mpr (by decide)

/-- C5: switching the active tab clears all five form fields, the predicted
price and the submitted details, so no result card remains displayed. -/
theorem tabChange_clears_state (s : State) (v : Variant) :
    (handleTabChange s v).activeFormType = v ∧
    (handleTabChange s v).bedrooms = "" ∧
    (handleTabChange s v).bathrooms = "" ∧
    (handleTabChange s v).propertyType = "" ∧
    (handleTabChange s v).dublinArea = "" ∧
    (handleTabChange s v).roomType = "" ∧
    (handleTabChange s v).predictedPrice = none ∧
    (handleTabChange s v).submittedDetails = none ∧
    showsResult (handleTabChange s v) = false := by
  refine ⟨rfl, rfl, rfl, rfl, rfl, rfl, rfl, rfl, rfl⟩

/-- C10: every invocation of `handlePredict` clears the previous predicted
price and submitted details in its synchronous prefix, before validation and
before any network call; hence after a validation failure the prior result is
gone, and a network failure resolved afterwards does not restore it. -/
theorem submit_clears_previous_result (s : State) (inflight : Payload) :
    (handlePredictStart s).1.predictedPrice = none ∧
    (handlePredictStart s).1.submittedDetails = none ∧
    showsResult (handlePredictStart s).1 = false ∧
    (handlePredictResolve (handlePredictStart s).1 inflight .failure).predictedPrice = none ∧
    (handlePredictResolve (handlePredictStart s).1 inflight .failure).submittedDetails = none ∧
    showsResult (handlePredictResolve (handlePredictStart s).1 inflight .failure) = false := by
  cases hty : s.activeFormType with
  | property =>
    by_cases hempty : s.bedrooms = "" ∨ s.bathrooms = "" ∨ s.propertyType = "" ∨ s.dublinArea = "" <;>
      simp [handlePredictStart, handlePredictResolve, showsResult, hty, hempty]
  | sharing =>
    by_cases hempty : s.propertyType = "" ∨ s.dublinArea = "" ∨ s.roomType = "" <;>
      simp [handlePredictStart, handlePredictResolve, showsResult, hty, hempty]

end Prediction

namespace AuthCtx

/-- C1 counterexample: bootstrapping over the stored token "tok" that the
identity service rejects leaves the axios default Authorization header
installed — the credential attachment to outbound calls is NOT removed, so
the claim as stated is false. -/
theorem bootstrap_reject_keeps_header_counterexample :
    (bootstrap (initState (some ("tok"))) .rejected).axiosAuthHeader
        = some ("Bearer tok") ∧
    (bootstrap (initState (some ("tok"))) .rejected).axiosAuthHeader ≠ none := by
  constructor
  · rfl
  · intro h
    simp [bootstrap, initState, fetchUser, orFalsy] at h

/-- C1 amended: for every non-empty stored credential the identity service
rejects, `bootstrap` ends `Unauthenticated` with the user, the in-memory
token and the storage entry cleared, exactly one identity request made (no
retry), and a second bootstrap over the now-empty storage stays
`Unauthenticated` with no further request — but the axios default
Authorization header installed during bootstrap remains in place. -/
theorem bootstrap_reject_invalidates (t : String) (ht : ¬ t = "") :
    (bootstrap (initState (some t)) .rejected).user = none ∧
    (bootstrap (initState (some t)) .rejected).token = none ∧
    (bootstrap (initState (some t)) .rejected).storage = none ∧
    authState (bootstrap (initState (some t)) .rejected) = .Unauthenticated ∧
    (bootstrap (initState (some t)) .rejected).identityRequests = [t] ∧
    (bootstrap (initState (some t)) .rejected).axiosAuthHeader = some ("Bearer " ++ t) ∧
    (∀ o, authState (bootstrap (bootstrap (initState (some t)) .rejected) o)
        = .Unauthenticated) ∧
    (∀ o, (bootstrap (bootstrap (initState (some t)) .rejected) o).identityRequests = [t]) := by
  have hb : bootstrap (initState (some t)) .rejected =
      { user := none, token := none, isLoading := false, storage := none,
        axiosAuthHeader := some ("Bearer " ++ t), navigations := [],
        identityRequests := [t] } := by
    simp [bootstrap, initState, fetchUser, orFalsy, ht]
  refine ⟨by rw [hb], by rw [hb], by rw [hb], by rw [hb]; rfl, by rw [hb], by rw [hb], ?_, ?_⟩
  · intro o
    rw [hb]
    rfl
  · intro o
    rw [hb]
    rfl

/-- C1 witness at the concrete rejected token "tok". -/
theorem bootstrap_reject_invalidates_witness :
    ¬ ("tok" : String) = "" ∧
    authState (bootstrap (initState (some ("tok"))) .rejected) = .Unauthenticated := by
  exact ⟨by decide, (bootstrap_reject_invalidates ("tok") (by decide)).2.2.2.1⟩

/-- C2: from every provider state, `logout` clears the user, the token, the
storage entry and the axios default Authorization header, derives
`Unauthenticated`, navigates to /login, and is idempotent: a second `logout`
reproduces the same session fields (with one more /login navigation). -/
theorem logout_clears_session (s : State) :
    (logout s).user = none ∧
    (logout s).token = none ∧
    (logout s).storage = none ∧
    (logout s).axiosAuthHeader = none ∧
    authState (logout s) = .Unauthenticated ∧
    (logout s).navigations = s.navigations ++ ["/login"] ∧
    (logout (logout s)).user = (logout s).user ∧
    (logout (logout s)).token = (logout s).token ∧
    (logout (logout s)).storage = (logout s).storage ∧
    (logout (logout s)).axiosAuthHeader = (logout s).axiosAuthHeader ∧
    authState (logout (logout s)) = authState (logout s) := by
  refine ⟨rfl, rfl, rfl, rfl, rfl, rfl, rfl, rfl, rfl, rfl, rfl⟩

end AuthCtx

namespace Health

/-- Every completed check clears the loading flag. -/
lemma checkHealth_isLoading (s : State) (o : CheckOutcome) :
    (checkHealth s o).isLoading = false := by
  cases o <;> rfl

/-- A run of checks keeps the loading flag cleared once it is cleared. -/
lemma foldl_checkHealth_isLoading (os : List CheckOutcome) (s : State)
    (h : s.isLoading = false) : (os.foldl checkHealth s).isLoading = false := by
  induction os generalizing s with
  | nil => exact h
  | cons o os ih => exact ih _ (checkHealth_isLoading _ _)

/-- After at least one completed check the loading flag is down. -/
lemma run_isLoading (os : List CheckOutcome) (h : os ≠ []) :
    (run os).isLoading = false := by
  cases os with
  | nil => exact absurd rfl h
  | cons o os => exact foldl_checkHealth_isLoading os _ (checkHealth_isLoading _ _)

/-- C7: a failed check replaces the stored status with the synthetic error
value whose readiness flags are all false; after any non-empty run of checks
the indicator is `healthy` exactly when the stored status equals "healthy";
and before the very first check completes the indicator is the distinct
checking state, which is neither the healthy nor the error rendering. -/
theorem health_poller_indicator (s : State) (os : List CheckOutcome) (h : os ≠ []) :
    checkHealth s .failure =
      { healthStatus := some
          { status := "error", property_model_trained := false,
            shared_model_trained := false, both_models_ready := false },
        isLoading := false } ∧
    (indicator (run os) = .healthy ↔
      ∃ st, (run os).healthStatus = some st ∧ st.status = "healthy") ∧
    indicator initState = .checking ∧
    Indicator.checking ≠ .healthy ∧ Indicator.checking ≠ .issues := by
  refine ⟨rfl, ?_, rfl, by decide, by decide⟩
  have hl := run_isLoading os h
  cases hhs : (run os).healthStatus with
  | none => simp [indicator, hl, isHealthy, hhs]
  | some st =>
    by_cases hstat : st.status = "healthy" <;>
      simp [indicator, hl, isHealthy, hhs, hstat]

/-- C7 witness: a single failing first check. -/
theorem health_poller_indicator_witness :
    ([CheckOutcome.failure] : List CheckOutcome) ≠ [] ∧
    (indicator (run [CheckOutcome.failure]) = .healthy ↔
      ∃ st, (run [CheckOutcome.failure]).healthStatus = some st ∧ st.status = "healthy") := by
  exact ⟨by decide, (health_poller_indicator initState [CheckOutcome.failure] (by decide)).2.1⟩

end Health

namespace ModelInfoView

/-- C6 counterexample: with property data already displayed, selecting the
sharing tab keeps showing the property snapshot while the sharing fetch is in
flight (no loading state replaces it); and a property response arriving after
the sharing response has been shown is applied, so the property snapshot is
displayed under the sharing tab rather than discarded. -/
theorem stale_model_info_counterexample :
    (render (selectVariant (resolve (mount .property) 0 (.success propertySample)) .sharing)
        = .dataView propertySample .sharing ∧
      (selectVariant (resolve (mount .property) 0 (.success propertySample)) .sharing).pending
        = [.sharing]) ∧
    render (resolve (resolve (selectVariant (mount .property) .sharing) 1 (.success sharingSample))
        0 (.success propertySample))
      = .dataView propertySample .sharing := by
  refine ⟨⟨rfl, rfl⟩, rfl⟩

/-- C6 amended: selecting a variant clears only the error and appends a new
in-flight request; the previously stored `ModelInfo` survives the switch and,
when present, is rendered as the data view under the new tab while the fetch
is in flight; a loading view shows only when no fetch has ever succeeded and
no error is displayed; and every in-flight response that resolves
successfully is stored unconditionally, whatever variant it was issued for. -/
theorem model_info_no_staleness_guard (s : State) (v : Variant) :
    ((selectVariant s v).modelInfo = s.modelInfo ∧
     (selectVariant s v).error = none ∧
     (selectVariant s v).pending = s.pending ++ [v] ∧
     (∀ mi, s.modelInfo = some mi → render (selectVariant s v) = .dataView mi v)) ∧
    (∀ i w d, s.pending[i]? = some w → (resolve s i (.success d)).modelInfo = some d) ∧
    (render s = .loading ↔ s.error = none ∧ s.modelInfo = none) := by
  refine ⟨⟨rfl, rfl, rfl, ?_⟩, ?_, ?_⟩
  · intro mi hmi
    simp [render, selectVariant, fetchModelInfoStart, hmi]
  · intro i w d hp
    simp [resolve, hp]
  · cases herr : s.error with
    | some msg => simp [render, herr]
    | none =>
      cases hmi : s.modelInfo with
      | none => simp [render, herr, hmi]
      | some mi => simp [render, herr, hmi]

/-- C6 amended witness at a concrete state holding property data. -/
theorem model_info_no_staleness_guard_witness :
    (resolve (mount .property) 0 (.success propertySample)).modelInfo = some propertySample ∧
    render (selectVariant (resolve (mount .property) 0 (.success propertySample)) .sharing)
      = .dataView propertySample .sharing := by
  refine ⟨rfl, ?_⟩
  exact (model_info_no_staleness_guard
    (resolve (mount .property) 0 (.success propertySample)) .sharing).1.2.2.2
    propertySample rfl

end ModelInfoView

namespace ModelInfoView

/-- C9: the displayed feature ranking is sorted in descending order of
weight, has exactly `min 10 n` entries, consists of the heaviest entries of
`feature_importances` (the displayed and dropped entries together are a
permutation of the fetched map, and every dropped weight is bounded by every
displayed one), and each displayed entry's relative bar width is its weight
times 100. -/
theorem feature_ranking (mi : ModelInfo) :
    List.Pairwise (fun a b => b.2 ≤ a.2) (sortedFeatures mi) ∧
    (sortedFeatures mi).length = min 10 mi.feature_importances.length ∧
    (∃ rest, List.Perm (sortedFeatures mi ++ rest) mi.feature_importances ∧
      ∀ a ∈ sortedFeatures mi, ∀ b ∈ rest, b.2 ≤ a.2) ∧
    renderedBars mi = (sortedFeatures mi).map (fun e => (e.1, e.2 * 100)) := by
  have hsorted : List.Pairwise (fun a b : String × ℚ => b.2 ≤ a.2)
      (mi.feature_importances.mergeSort (fun a b => decide (b.2 ≤ a.2))) := by
    have h := @List.sorted_mergeSort (String × ℚ)
      (fun a b : String × ℚ => decide (b.2 ≤ a.2))
      (fun a b c hab hbc => by
        simp only [decide_eq_true_eq] at *
        exact le_trans hbc hab)
      (fun a b => by
        simp only [Bool.or_eq_true, decide_eq_true_eq]
        exact le_total b.2 a.2)
      mi.feature_importances
    exact h.imp (fun hb => by simpa using hb)
  refine ⟨?_, ?_, ?_, rfl⟩
  · exact hsorted.sublist (List.take_sublist _ _)
  · rw [sortedFeatures, List.length_take, List.length_mergeSort]
  · refine ⟨(mi.feature_importances.mergeSort (fun a b => decide (b.2 ≤ a.2))).drop 10, ?_, ?_⟩
    · rw [sortedFeatures, List.take_append_drop]
      exact List.mergeSort_perm _ _
    · intro a ha b hb
      have hsplit : List.Pairwise (fun a b : String × ℚ => b.2 ≤ a.2)
          ((mi.feature_importances.mergeSort (fun a b => decide (b.2 ≤ a.2))).take 10 ++
            (mi.feature_importances.mergeSort (fun a b => decide (b.2 ≤ a.2))).drop 10) := by
        rw [List.take_append_drop]
        exact hsorted
      exact (List.pairwise_append.mp hsplit).2.2 a ha b hb

end ModelInfoView

namespace History

/-- C8 counterexample: with a logged-in user and the credential "tok" that
the history service rejects (non-ok response with no JSON detail), the page
makes one network call and lands in the generic fetch-error state — the very
state a pure transport error with the same message produces — and not in the
login-prompt state, so the rejection is not surfaced as an
authentication-required condition. -/
theorem history_rejection_counterexample :
    (loadHistoryEffect false (some sampleUser) (some ("tok")) (.httpError none) initPageState).2
        = 1 ∧
    (loadHistoryEffect false (some sampleUser) (some ("tok")) (.httpError none) initPageState).1.error
        = some ("Failed to fetch search history.") ∧
    (loadHistoryEffect false (some sampleUser) (some ("tok")) (.httpError none) initPageState).1.error
        ≠ some ("Please log in to view your search history.") ∧
    loadHistoryEffect false (some sampleUser) (some ("tok")) (.httpError none) initPageState
        = loadHistoryEffect false (some sampleUser) (some ("tok"))
            (.networkError ("Failed to fetch search history.")) initPageState ∧
    renderPage false
        (loadHistoryEffect false (some sampleUser) (some ("tok")) (.httpError none) initPageState).1
      = .errorView ("Failed to fetch search history.") := by
  refine ⟨rfl, rfl, by decide, rfl, rfl⟩

/-- C8 amended: a history fetch with a present credential that the service
rejects makes exactly one network call and surfaces the service-provided
detail — or the generic message "Failed to fetch search history." — through
the same error cell and error view a transport error uses, with no
distinguished authentication-required condition; only the no-credential case
is reported as the login prompt, with zero network calls. -/
theorem history_rejection_amended (u : AuthCtx.User) (t : String) (ht : ¬ t = "")
    (detail : Option String) (s : PageState) :
    ((loadHistoryEffect false (some u) (some t) (.httpError detail) s).2 = 1 ∧
     (loadHistoryEffect false (some u) (some t) (.httpError detail) s).1.error
        = some (detail.getD ("Failed to fetch search history.")) ∧
     loadHistoryEffect false (some u) (some t) (.httpError detail) s
        = loadHistoryEffect false (some u) (some t)
            (.networkError (detail.getD ("Failed to fetch search history."))) s) ∧
    (∀ resp, (loadHistoryEffect false (some u) none resp s).2 = 0 ∧
      (loadHistoryEffect false (some u) none resp s).1.error
        = some ("Please log in to view your search history.")) := by
  refine ⟨⟨?_, ?_, ?_⟩, ?_⟩ <;>
    simp [loadHistoryEffect, fetchUserSearchHistory, ht]

/-- C8 amended witness at the concrete token "tok" with no service detail. -/
theorem history_rejection_amended_witness :
    ¬ ("tok" : String) = "" ∧
    (loadHistoryEffect false (some sampleUser) (some ("tok")) (.httpError none) initPageState).1.error
      = some ((none : Option String).getD ("Failed to fetch search history.")) := by
  exact ⟨by decide,
    (history_rejection_amended sampleUser ("tok") (by decide) none initPageState).1.2.1⟩

end History
